import Mathlib

/-!
Verification of the mlget download manager core (resolver, downloader, state
store, install orchestration) against its specification.

The Python sources are shallowly embedded: pure string manipulation becomes
Lean functions on `String`; filesystem, subprocess and network effects are
passed in explicitly as environment records, so every function is total and
executable.  Python exceptions are modelled with `Except`/explicit error
values; a `try/except` that swallows an exception becomes a `match` that
falls through to the handler branch.
-/

namespace MLget

/-! ## Python string primitives

Helpers mirroring the exact Python string operations used by the sources.
They are written by structural recursion over `List Char` so that every
concrete instance evaluates inside the kernel.  Only ASCII text occurs in
the inputs at issue, so Python whitespace/digit classes coincide with the
ASCII ones used here.
-/

/-- Python `s.strip()`: remove leading and trailing whitespace. -/
def pyTrim (s : String) : String :=
  String.mk
    (((s.toList.dropWhile Char.isWhitespace).reverse.dropWhile Char.isWhitespace).reverse)

/-- Python `s.strip(":")`: remove leading and trailing colon characters. -/
def stripColons (s : String) : String :=
  String.mk (((s.toList.dropWhile (fun c => c = ':')).reverse.dropWhile
    (fun c => c = ':')).reverse)

/-- Python `s.startswith(pre)`. -/
def strStarts (s pre : String) : Bool :=
  pre.toList.isPrefixOf s.toList

/-- Python `s.endswith(suf)`. -/
def strEnds (s suf : String) : Bool :=
  suf.toList.reverse.isPrefixOf s.toList.reverse

/-- Python `s.lower()` for ASCII text. -/
def strLower (s : String) : String :=
  String.mk (s.toList.map Char.toLower)

/-- Worker for `splitOnS`: scan the text, at each position either consume
a full occurrence of the (nonempty) separator `s0 :: srest` and close the
current piece, or move one character into the current piece.  The fuel is
an upper bound on the number of steps; each step consumes at least one
character, so `length + 1` fuel never runs out. -/
def splitOnFuel (s0 : Char) (srest : List Char) :
    Nat → List Char → List Char → List (List Char)
  | 0, cur, _ => [cur.reverse]
  | _ + 1, cur, [] => [cur.reverse]
  | fuel + 1, cur, c :: rest =>
    if (s0 :: srest).isPrefixOf (c :: rest) then
      cur.reverse :: splitOnFuel s0 srest fuel [] (rest.drop srest.length)
    else
      splitOnFuel s0 srest fuel (c :: cur) rest

/-- Python `s.split(sep)` for a nonempty separator `sep`: the pieces of
`s` between non-overlapping occurrences of `sep`, empties kept. -/
def splitOnS (s sep : String) : List String :=
  match sep.toList with
  | [] => [s]
  | c :: cs => (splitOnFuel c cs (s.toList.length + 1) [] s.toList).map String.mk

/-- Worker for `splitWs`: split on whitespace runs, discarding empty
pieces, with the current in-progress token carried reversed. -/
def splitWsAux : List Char → List Char → List String
  | cur, [] => if cur.isEmpty then [] else [String.mk cur.reverse]
  | cur, c :: rest =>
    if c.isWhitespace then
      (if cur.isEmpty then [] else [String.mk cur.reverse]) ++ splitWsAux [] rest
    else
      splitWsAux (c :: cur) rest

/-- Python `s.split()` with no separator: split on whitespace runs and
discard empty pieces. -/
def splitWs (s : String) : List String :=
  splitWsAux [] s.toList

/-- Python `s.isdigit()` for the ASCII inputs in scope: nonempty and all
characters decimal digits. -/
def pyIsDigit (s : String) : Bool :=
  s ≠ "" && s.toList.all Char.isDigit

/-- The numeric value of an all-digits string (Python `int(s)` under the
`isdigit` guard). -/
def digitsToNat (s : String) : Nat :=
  s.toList.foldl (fun n c => n * 10 + (c.toNat - 48)) 0

/-- Python `sep.join(pieces)`. -/
def joinSep (sep : String) : List String → String
  | [] => ""
  | [x] => x
  | x :: y :: xs => x ++ sep ++ joinSep sep (y :: xs)

/-- Python `pat in s` for a nonempty pattern `pat`: `str.split` on a
nonempty separator returns more than one piece exactly when the separator
occurs.  (Every pattern used by the sources is nonempty.) -/
def containsSub (s pat : String) : Bool :=
  (splitOnS s pat).length != 1

/-- Python `pathlib.Path(s).name` for POSIX-style strings: the last
component of the path.  Empty components and `.` components are dropped by
pathlib normalisation; an empty path or a bare root has name `""`. -/
def pathName (s : String) : String :=
  ((splitOnS s "/").filter (fun t => t ≠ "" && t ≠ ".")).getLastD ""

/-- Python `pathlib.Path(name).suffix` on a final path component: the text
from the last dot onward, provided that dot is neither the first nor the
last character of the component (CPython: `0 < i < len(name) - 1`). -/
def pySuffix (name : String) : String :=
  let parts := splitOnS name "."
  if parts.length ≤ 1 then ""
  else
    let ext := parts.getLastD ""
    let stem := joinSep "." parts.dropLast
    if ext ≠ "" && stem ≠ "" then "." ++ ext else ""

/-- Python `pathlib.Path(s)` normalisation as a string, in the one aspect
the sources depend on: the empty string denotes the current directory. -/
def pathOf (s : String) : String :=
  if s = "" then "." else s

/-- Python `str(pathlib.Path(d) / f)` for a component `f` that contains no
slash: join with a single separator, treating `""` and `"."` directories as
the current directory. -/
def pyJoin (d f : String) : String :=
  if d = "" || d = "." then f
  else if strEnds d "/" then d ++ f
  else d ++ "/" ++ f

/-! ## resolver.py -/

/-- `resolver.is_url`: the spec starts with one of the allowed URL
schemes. -/
def is_url (spec : String) : Bool :=
  strStarts spec "http://" || strStarts spec "https://" || strStarts spec "file://"

/-- Environment consumed by `_detect_nvidia_cuda`: result of
`shutil.which("nvidia-smi")`, outcome of invoking it (`Except.error`
models `subprocess.check_output` raising), and `os.environ.get`. -/
structure ProbeEnv where
  whichNvidiaSmi : Option String
  smiOutput : Except Unit String
  getEnv : String → Option String

/-- The body of the per-line scan inside `_detect_nvidia_cuda`: when the
line contains `"CUDA Version"`, take the text after the first occurrence,
strip whitespace, colons, whitespace again, and if nonempty return its
first whitespace-delimited token. -/
def parseSmiLine (line : String) : Option String :=
  match splitOnS line "CUDA Version" with
  | _ :: p1 :: _ =>
    let v := pyTrim (stripColons (pyTrim p1))
    if v = "" then none else some ((splitWs v).headD "")
  | _ => none

/-- The loop over `out.splitlines()` inside `_detect_nvidia_cuda`: return
the value of the first line that yields one. -/
def scanSmiOutput (out : String) : Option String :=
  (splitOnS out "\n").findSome? parseSmiLine

/-- The environment-variable fallback loop of `_detect_nvidia_cuda`: scan
`CUDA_VERSION`, `CUDA_HOME`, `CUDA_ROOT` in order; for the first set,
nonempty value that contains a dot and whose first dot-separated piece is
all digits, return the first two pieces joined by a dot. -/
def envFallback (getEnv : String → Option String) : Option String :=
  ["CUDA_VERSION", "CUDA_HOME", "CUDA_ROOT"].findSome? (fun name =>
    match getEnv name with
    | none => none
    | some val =>
      if val = "" then none
      else if containsSub val "." then
        let parts := splitOnS val "."
        if pyIsDigit (parts.headD "") then
          some (joinSep "." (parts.take 2))
        else none
      else none)

/-- `resolver._detect_nvidia_cuda`: when `nvidia-smi` is on the path and
invoking it succeeds, scan its output; on a missed scan, a missing binary,
or an invocation exception (the `try/except Exception: pass`), fall back
to the environment variables.  Total by construction: every failure mode
lands in `envFallback`, never in an error. -/
def _detect_nvidia_cuda (env : ProbeEnv) : Option String :=
  match env.whichNvidiaSmi with
  | some _ =>
    match env.smiOutput with
    | .ok out =>
      match scanSmiOutput out with
      | some v => some v
      | none => envFallback env.getEnv
    | .error _ => envFallback env.getEnv
  | none => envFallback env.getEnv

/-- `resolver._cuda_to_tag`: map a detected CUDA version to a pytorch
wheel tag by exact-prefix match against the fixed table; `None` and the
empty string (Python falsiness) and every unrecognised version map to
`none`. -/
def _cuda_to_tag (cuda_ver : Option String) : Option String :=
  match cuda_ver with
  | none => none
  | some s =>
    if s = "" then none
    else
      let v := pyTrim s
      if strStarts v "12.1" then some "cu121"
      else if strStarts v "12.0" then some "cu120"
      else if strStarts v "11.8" then some "cu118"
      else if strStarts v "11.7" then some "cu117"
      else if strStarts v "11.6" then some "cu116"
      else none

/-- One entry of the scratch directory after a `pip download` run, as seen
by the collection loop: its final name, whether it is a regular file, and
the `file://` URI of its canonicalised path (`f.resolve().as_uri()`). -/
structure DirEntry where
  name : String
  isFile : Bool
  uri : String
deriving Repr, DecidableEq

/-- Outcome of one `subprocess.run` of `pip download`, together with the
contents of the scratch directory afterwards.  The stale-file cleanup that
precedes the run (unlink each file, errors ignored) only affects that
directory state, which this record already carries; `sys.executable`
always exists, so the `subprocess.run` call itself is modelled as always
starting. -/
structure PipResult where
  returncode : Int
  stderr : String
  entries : List DirEntry

/-- Python exceptions escaping the resolver: `ValueError` with its
message, and the `IndexError` from `spec.split()[0]` on a whitespace-only
spec that reaches that line. -/
inductive PyError where
  | valueError (msg : String)
  | indexError
deriving Repr, DecidableEq

/-- The collection loop at the end of `_pip_download_to_tmp`: keep regular
files whose suffix is `.whl` or whose name ends in `.tar.gz`, as URIs. -/
def collectWheels (entries : List DirEntry) : List String :=
  (entries.filter (fun f => f.isFile && (pySuffix f.name == ".whl" || strEnds f.name ".tar.gz"))).map
    (fun f => f.uri)

/-- `resolver._pip_download_to_tmp`: run `pip download`; on nonzero exit
the raised `RuntimeError("pip download failed: " + stderr.strip())` is
caught and re-raised as a `ValueError` wrapping it; on success collect the
wheel/tarball files from the scratch directory. -/
def _pip_download_to_tmp (pip : String → String → PipResult)
    (package_spec find_links : String) : Except PyError (List String) :=
  let proc := pip package_spec find_links
  if proc.returncode ≠ 0 then
    let st := pyTrim proc.stderr
    .error (.valueError ("Failed to download wheel for " ++ package_spec ++ " from "
      ++ find_links ++ ": pip download failed: " ++ st))
  else
    .ok (collectWheels proc.entries)

/-- `resolver._resolve_torch`: choose a find-links index (explicit
`+cu`/`+cpu` tag in the spec wins, else the detected-CUDA tag, else the
CPU index) and delegate to `_pip_download_to_tmp`.  The Python
`if spec.startswith("torch"): pkg = spec` is a no-op (`pkg` is `spec`
either way) and is embedded as such. -/
def _resolve_torch (probe : ProbeEnv) (pip : String → String → PipResult)
    (package_spec : String) : Except PyError (List String) :=
  let spec := pyTrim package_spec
  let pkg := spec
  if containsSub spec "+cu" || containsSub spec "+cpu" then
    _pip_download_to_tmp pip pkg "https://download.pytorch.org/whl/cu121/"
  else
    let cuda := _detect_nvidia_cuda probe
    match _cuda_to_tag cuda with
    | some tag =>
      _pip_download_to_tmp pip pkg ("https://download.pytorch.org/whl/" ++ tag ++ "/")
    | none =>
      _pip_download_to_tmp pip pkg "https://download.pytorch.org/whl/cpu/"

/-- The find-links index `_resolve_torch` passes to `_pip_download_to_tmp`
for a given (already stripped) spec, factored out for statements. -/
def torchFindLinks (probe : ProbeEnv) (spec : String) : String :=
  if containsSub spec "+cu" || containsSub spec "+cpu" then
    "https://download.pytorch.org/whl/cu121/"
  else
    match _cuda_to_tag (_detect_nvidia_cuda probe) with
    | some tag => "https://download.pytorch.org/whl/" ++ tag ++ "/"
    | none => "https://download.pytorch.org/whl/cpu/"

/-- Filesystem view consumed by `resolve`: `Path.exists` and
`str(Path.resolve())` (canonicalised absolute path). -/
structure FileSys where
  pathExists : String → Bool
  resolvePath : String → String

/-- `resolver.resolve`: strip the spec; URL branch first, then existing
local path, then literal archive-filename passthrough, then the
torch/pytorch special case, else a `ValueError`.  `spec.split()[0]` on a
spec with no whitespace-delimited token raises `IndexError`, embedded as
the dedicated error value. -/
def resolve (fs : FileSys) (probe : ProbeEnv) (pip : String → String → PipResult)
    (package_spec : String) : Except PyError (List String) :=
  let spec := pyTrim package_spec
  if is_url spec then .ok [spec]
  else if fs.pathExists (pathOf spec) then .ok [fs.resolvePath (pathOf spec)]
  else if strEnds spec ".whl" || strEnds spec ".tar.gz" then .ok [spec]
  else
    match splitWs spec with
    | [] => .error .indexError
    | tok :: _ =>
      let lower := strLower tok
      if strStarts lower "torch" || strStarts lower "pytorch" then
        match _resolve_torch probe pip spec with
        | .error e => .error e
        | .ok files =>
          if files.isEmpty then
            .error (.valueError ("Could not automatically download a matching PyTorch wheel."
              ++ " Please provide a direct wheel URL or local path."))
          else .ok files
      else
        .error (.valueError ("Could not resolve package spec automatically."
          ++ " Please provide a direct URL to the wheel or a local path."))

/-! ## downloader.py -/

/-- The result dict shared by both transfer strategies. -/
structure DownloadResult where
  url : String
  out_path : String
  returncode : Int
  stdout : String
  stderr : String
  continued : Bool
deriving Repr, DecidableEq

/-- Captured streams and exit code of one synchronous `subprocess.run`. -/
structure ProcOut where
  returncode : Int
  stdout : String
  stderr : String
deriving Repr, DecidableEq

/-- World consumed by `Aria2cDownloader.download`: the subprocess as a
function of its argv, and the existence of the `.part` marker file at two
instants — before the subprocess is started (ghost state, never read by
the code) and at the moment the result dict is built, after
`subprocess.run` has returned.  The two may differ: the filesystem can
change while the external accelerator runs. -/
structure Aria2World where
  run : List String → ProcOut
  partExistsBeforeRun : Bool
  partExistsAfterRun : Bool

/-- Observable outcome of `Aria2cDownloader.download`: the argv actually
passed to `subprocess.run`, and the returned result dict. -/
structure Aria2Outcome where
  argv : List String
  result : DownloadResult
deriving Repr, DecidableEq

/-- `Aria2cDownloader.download`: derive the output filename from the last
URL path segment (default `downloaded.file`), build the fixed argument
list, splice caller-supplied extra arguments (with `None` entries
filtered) immediately after the executable when the extra list is truthy,
run the subprocess, and build the result dict — whose `continued` field
reads `part_path.exists()` at that point, after the run. -/
def Aria2cDownloader.download (w : Aria2World) (aria2c url outDir : String)
    (split : Nat) (extra_args : Option (List (Option String))) : Aria2Outcome :=
  let filename := if pathName url = "" then "downloaded.file" else pathName url
  let out_path := pyJoin outDir filename
  let base := [aria2c, "--enable-rpc=false", "--split=" ++ toString split,
    "--max-connection-per-server=" ++ toString split, "--continue=true",
    "--dir", outDir, "--out", filename, url]
  let args := match extra_args with
    | none => base
    | some l => if l.isEmpty then base else [aria2c] ++ l.filterMap id ++ base.drop 1
  let proc := w.run args
  { argv := args,
    result := { url := url, out_path := out_path, returncode := proc.returncode,
                stdout := proc.stdout, stderr := proc.stderr,
                continued := w.partExistsAfterRun } }

/-- World consumed by `python_fallback_download`, giving the outcome of
each effect in program order: whether the `.part` file exists before the
call, whether `urllib.request.urlopen` succeeds, the Content-Length header
(when the response exposes one), whether opening the `.part` file for
writing succeeds, the sizes of the chunks read and written before the
loop ends, whether the loop ends at end-of-stream (`readEof`) or with an
exception, and whether the final `part_path.replace(out_path)` succeeds.
Each failure mode carries the text of its exception. -/
structure FetchWorld where
  partPreExists : Bool
  urlopenOk : Bool
  urlopenErrMsg : String
  contentLength : Option String
  openPartOk : Bool
  openErrMsg : String
  chunks : List Nat
  readEof : Bool
  readErrMsg : String
  renameOk : Bool
  renameErrMsg : String

/-- Outcome of `python_fallback_download`: the result dict plus the
post-call filesystem facts the spec talks about (`.part` existence) and
the incidental progress bookkeeping (bytes written, parsed total). -/
structure FallbackOutcome where
  result : DownloadResult
  partExistsAfter : Bool
  bytesWritten : Nat
  totalHeader : Option Nat
deriving Repr, DecidableEq

/-- `python_fallback_download`: stream the URL into `<filename>.part` in
chunks, then rename the part file onto the final name; on any exception
(open, read, write or rename) return the fixed sentinel code 2 with the
part path as destination and `continued` set to whether the part file
exists at that instant.  The progress display (`tqdm`) has no effect on
the result and is omitted; the Content-Length parse it relies on is kept.
Nothing ever deletes the part file. -/
def python_fallback_download (w : FetchWorld) (url outDir : String) : FallbackOutcome :=
  let filename := if pathName url = "" then "downloaded.file" else pathName url
  let out_path := pyJoin outDir filename
  let part_path := pyJoin outDir (filename ++ ".part")
  if !w.urlopenOk then
    { result := ⟨url, part_path, 2, "", w.urlopenErrMsg, w.partPreExists⟩,
      partExistsAfter := w.partPreExists, bytesWritten := 0, totalHeader := none }
  else
    let total : Option Nat := match w.contentLength with
      | some h => if h ≠ "" && pyIsDigit h then some (digitsToNat h) else none
      | none => none
    if !w.openPartOk then
      { result := ⟨url, part_path, 2, "", w.openErrMsg, w.partPreExists⟩,
        partExistsAfter := w.partPreExists, bytesWritten := 0, totalHeader := total }
    else
      let downloaded := w.chunks.foldl (· + ·) 0
      if !w.readEof then
        { result := ⟨url, part_path, 2, "", w.readErrMsg, true⟩,
          partExistsAfter := true, bytesWritten := downloaded, totalHeader := total }
      else if !w.renameOk then
        { result := ⟨url, part_path, 2, "", w.renameErrMsg, true⟩,
          partExistsAfter := true, bytesWritten := downloaded, totalHeader := total }
      else
        { result := ⟨url, out_path, 0, "", "", false⟩,
          partExistsAfter := false, bytesWritten := downloaded, totalHeader := total }

/-! ## cache.py

The two SQLite tables are embedded as lists of rows in insertion order,
with the AUTOINCREMENT id counters carried explicitly.  Timestamps
(`CURRENT_TIMESTAMP`) are supplied by the caller as abstract `Nat` clock
values.
-/

/-- One row of the `downloads` table. -/
structure DownloadRow where
  id : Nat
  url : String
  out_path : String
  total_bytes : Int
  downloaded_bytes : Int
  status : String
  created_at : Nat
  updated_at : Nat
deriving Repr, DecidableEq

/-- One row of the `cache` table (`file_path` carries a UNIQUE
constraint). -/
structure CacheRow where
  id : Nat
  file_path : String
  pkg_name : Option String
  pkg_version : Option String
  size : Nat
  last_used_at : Nat
deriving Repr, DecidableEq

/-- The embedded store: both tables plus their AUTOINCREMENT counters. -/
structure CacheDB where
  downloads : List DownloadRow
  cache : List CacheRow
  nextDownloadId : Nat
  nextCacheId : Nat
deriving Repr, DecidableEq

/-- The AUTOINCREMENT discipline: every existing row id is below the next
id to be assigned. -/
def CacheDB.wf (db : CacheDB) : Prop :=
  ∀ r ∈ db.downloads, r.id < db.nextDownloadId

/-- `CacheDB.add_download`: INSERT a new row with byte counters defaulted
to 0 and both timestamps set to now; returns the assigned rowid. -/
def CacheDB.add_download (db : CacheDB) (url out_path status : String)
    (now : Nat) : CacheDB × Nat :=
  let row : DownloadRow :=
    { id := db.nextDownloadId, url := url, out_path := out_path,
      total_bytes := 0, downloaded_bytes := 0, status := status,
      created_at := now, updated_at := now }
  ({ db with downloads := db.downloads ++ [row],
             nextDownloadId := db.nextDownloadId + 1 }, db.nextDownloadId)

/-- The keyword-argument field map accepted by `update_download`
(`status`, `downloaded_bytes`, `total_bytes` are the fields the callers
pass). -/
structure DownloadUpdate where
  status : Option String := none
  downloaded_bytes : Option Int := none
  total_bytes : Option Int := none
deriving Repr, DecidableEq

/-- Whether the Python `**fields` dict is empty (`if not fields: return`). -/
def DownloadUpdate.isEmpty (u : DownloadUpdate) : Bool :=
  u.status.isNone && u.downloaded_bytes.isNone && u.total_bytes.isNone

/-- Apply the SET clause of `update_download` to one row: overwrite the
given fields and refresh `updated_at`. -/
def DownloadUpdate.apply (u : DownloadUpdate) (now : Nat) (r : DownloadRow) : DownloadRow :=
  { r with status := u.status.getD r.status,
           downloaded_bytes := u.downloaded_bytes.getD r.downloaded_bytes,
           total_bytes := u.total_bytes.getD r.total_bytes,
           updated_at := now }

/-- `CacheDB.update_download`: no-op on an empty field map, else UPDATE
every row whose id matches (no existence check). -/
def CacheDB.update_download (db : CacheDB) (download_id : Nat)
    (u : DownloadUpdate) (now : Nat) : CacheDB :=
  if u.isEmpty then db
  else
    { db with downloads := db.downloads.map (fun r =>
        if r.id = download_id then u.apply now r else r) }

/-- `CacheDB.add_cache_entry`: INSERT OR IGNORE keyed on the UNIQUE
`file_path`: when a row with the path already exists the statement is a
no-op (and `lastrowid` is unset, coerced to 0); otherwise insert with the
size read from the live filesystem (`fsSize`, `none` when the file is
absent, recorded as 0) and the current timestamp. -/
def CacheDB.add_cache_entry (db : CacheDB) (fsSize : String → Option Nat)
    (file_path : String) (pkg_name pkg_version : Option String)
    (now : Nat) : CacheDB × Nat :=
  if db.cache.any (fun r => r.file_path = file_path) then (db, 0)
  else
    let row : CacheRow :=
      { id := db.nextCacheId, file_path := file_path, pkg_name := pkg_name,
        pkg_version := pkg_version, size := (fsSize file_path).getD 0,
        last_used_at := now }
    ({ db with cache := db.cache ++ [row], nextCacheId := db.nextCacheId + 1 },
      db.nextCacheId)

/-- Number of `cache` rows holding a given path. -/
def countPath (rows : List CacheRow) (path : String) : Nat :=
  (rows.filter (fun r => r.file_path = path)).length

/-- Status of the row with the given id, as a read
(`list_downloads`) would report it. -/
def statusOf (db : CacheDB) (download_id : Nat) : Option String :=
  (db.downloads.find? (fun r => r.id = download_id)).map (fun r => r.status)

/-! ## cli.py install flow (state-store operations) -/

/-- The sequence of store operations the `install` command performs once a
transfer result with exit code `rc` is in hand: register the task as
`queued`, then — depending on `rc` — mark it `completed` (zeroing both
byte counters) and register the produced file in the cache (a step that
cannot touch the `downloads` table, and whose exceptions `install`
swallows), or mark it `failed`.  Returns the task id and the store states
after each successive operation. -/
def installOps (db : CacheDB) (fsSize : String → Option Nat)
    (url out_path cachePath : String) (rc : Int)
    (t1 t2 t3 : Nat) : Nat × List CacheDB :=
  let step1 := db.add_download url out_path "queued" t1
  let db1 := step1.1
  let did := step1.2
  if rc = 0 then
    let db2 := db1.update_download did
      { status := some "completed", downloaded_bytes := some 0, total_bytes := some 0 } t2
    let db3 := (db2.add_cache_entry fsSize cachePath none none t3).1
    (did, [db1, db2, db3])
  else
    let db2 := db1.update_download did { status := some "failed" } t2
    (did, [db1, db2])

/-- The created task status as read back after each successive store
operation of one install run. -/
def installStatusTrace (db : CacheDB) (fsSize : String → Option Nat)
    (url out_path cachePath : String) (rc : Int)
    (t1 t2 t3 : Nat) : List (Option String) :=
  let p := installOps db fsSize url out_path cachePath rc t1 t2 t3
  p.2.map (fun s => statusOf s p.1)

/-- A task status from which the install flow never moves away. -/
def isTerminalStatus (s : Option String) : Bool :=
  s == some "completed" || s == some "failed"

/-! ## Concrete environments used to instantiate the theorems -/

/-- A filesystem on which every path exists and canonicalisation is the
identity (paths are already absolute). -/
def fsAll : FileSys := ⟨fun _ => true, fun s => s⟩

/-- A filesystem on which no path exists. -/
def fsNone : FileSys := ⟨fun _ => false, fun s => s⟩

/-- A filesystem on which only the current directory exists, canonicalised
to a fixed absolute path. -/
def fsDot : FileSys := ⟨fun p => p == ".", fun _ => "/home/user/proj"⟩

/-- A machine with no `nvidia-smi` and no CUDA environment variables. -/
def probeNone : ProbeEnv := ⟨none, .error (), fun _ => none⟩

/-- A machine where `nvidia-smi` is on the path but invoking it raises,
and no CUDA environment variables are set. -/
def probeSmiFail : ProbeEnv := ⟨some "/usr/bin/nvidia-smi", .error (), fun _ => none⟩

/-- A pip helper that exits 0 having produced no files. -/
def pipEmpty : String → String → PipResult := fun _ _ => ⟨0, "", []⟩

/-- A pip helper that exits 1 with a diagnostic on stderr. -/
def pipFail : String → String → PipResult :=
  fun _ _ => ⟨1, " No matching distribution found for torch \n", []⟩

/-- A pip helper that exits 0 leaving one wheel in the scratch dir. -/
def pipOne : String → String → PipResult :=
  fun _ _ => ⟨0, "", [⟨"torch-2.1.0-cp311-linux.whl", true,
    "file:///home/user/.mlget/tmp/resolver_pip_download/torch-2.1.0-cp311-linux.whl"⟩]⟩

/-- An accelerator world whose `.part` marker appears only while the
subprocess runs: absent before it starts, present when it has exited. -/
def wPartAppears : Aria2World := ⟨fun _ => ⟨0, "", ""⟩, false, true⟩

/-- An accelerator world with a fixed subprocess outcome and a stable
`.part` marker. -/
def wAriaOk : Aria2World := ⟨fun _ => ⟨0, "done", ""⟩, true, true⟩

/-- A fallback-download world in which the connection fails at `urlopen`
and no partial file pre-exists. -/
def wFetchConnFail : FetchWorld :=
  ⟨false, false, "URLError: connection refused", none, true, "", [], true, "", true, ""⟩

/-- A fallback-download world in which the stream breaks midway after two
chunks. -/
def wFetchMidFail : FetchWorld :=
  ⟨false, true, "", some "100", true, "", [8, 8], false, "IncompleteRead", true, ""⟩

/-- A fallback-download world in which the whole stream is read and the
rename succeeds. -/
def wFetchOk : FetchWorld :=
  ⟨false, true, "", some "16", true, "", [8, 8], true, "", true, ""⟩

/-- The empty store, as created by `_init_schema` on a fresh file. -/
def db0 : CacheDB := ⟨[], [], 1, 1⟩

/-- A live filesystem with no files (every `stat` fails). -/
def sizeNone : String → Option Nat := fun _ => none

/-! ## Theorems -/

/-- C3: `_cuda_to_tag` maps `"12.1"` to `"cu121"`, `"11.8"` to `"cu118"`,
an absent version to no variant, `"9.9"` to no variant, and — matching
being exact-prefix against the fixed table — every version matching none
of the table prefixes to no variant, without failing. -/
theorem cuda_variant_mapping :
    _cuda_to_tag none = none ∧
    _cuda_to_tag (some "12.1") = some "cu121" ∧
    _cuda_to_tag (some "11.8") = some "cu118" ∧
    _cuda_to_tag (some "9.9") = none ∧
    (∀ v : String,
      strStarts (pyTrim v) "12.1" = false → strStarts (pyTrim v) "12.0" = false →
      strStarts (pyTrim v) "11.8" = false → strStarts (pyTrim v) "11.7" = false →
      strStarts (pyTrim v) "11.6" = false → _cuda_to_tag (some v) = none) := by
  refine ⟨rfl, by decide, by decide, by decide, ?_⟩
  intro v h1 h2 h3 h4 h5
  unfold _cuda_to_tag
  simp [h1, h2, h3, h4, h5]

/-- Witness for C3: the general no-match conjunct applied at the concrete
unrecognized version `"9.9"`. -/
theorem cuda_variant_mapping_witness : _cuda_to_tag (some "9.9") = none :=
  cuda_variant_mapping.2.2.2.2 "9.9" (by decide) (by decide) (by decide)
    (by decide) (by decide)

/-- C1 counterexample: a spec with leading whitespace whose stripped form
is a URL is not returned unchanged — `resolve` returns the stripped spec,
not the original one (here on a filesystem where the spec also names an
existing path). -/
theorem resolve_url_returns_stripped_spec :
    resolve fsAll probeNone pipEmpty " http://example.com/pkg.whl"
      = .ok ["http://example.com/pkg.whl"] ∧
    resolve fsAll probeNone pipEmpty " http://example.com/pkg.whl"
      ≠ .ok [" http://example.com/pkg.whl"] := by
  constructor
  · rfl
  · intro h
    rw [show resolve fsAll probeNone pipEmpty " http://example.com/pkg.whl"
      = Except.ok ["http://example.com/pkg.whl"] from rfl] at h
    exact absurd (Except.ok.inj h) (by decide)

/-- C1 (amended): for every spec whose stripped form starts with an
allowed URL scheme, `resolve` returns the singleton of the STRIPPED spec
(the spec unchanged whenever it carries no surrounding whitespace), even
when the spec also names an existing local path; the URL branch is decided
before the existing-local-path branch, which returns the canonicalized
absolute path as a singleton. -/
theorem resolve_precedence (fs : FileSys) (probe : ProbeEnv)
    (pip : String → String → PipResult) (spec : String) :
    (is_url (pyTrim spec) = true →
      resolve fs probe pip spec = .ok [pyTrim spec]) ∧
    (is_url (pyTrim spec) = false → fs.pathExists (pathOf (pyTrim spec)) = true →
      resolve fs probe pip spec = .ok [fs.resolvePath (pathOf (pyTrim spec))]) := by
  constructor
  · intro h
    unfold resolve
    simp [h]
  · intro h1 h2
    unfold resolve
    simp [h1, h2]

/-- Witness for C1 (amended): both branches at concrete inputs — a
`file://` spec on a filesystem where every path exists, and an existing
plain path. -/
theorem resolve_precedence_witness :
    resolve fsAll probeNone pipEmpty "file:///tmp/x" = .ok ["file:///tmp/x"] ∧
    resolve fsAll probeNone pipEmpty "pkg.whl" = .ok ["pkg.whl"] :=
  ⟨(resolve_precedence fsAll probeNone pipEmpty "file:///tmp/x").1 (by decide),
   (resolve_precedence fsAll probeNone pipEmpty "pkg.whl").2 (by decide) (by decide)⟩

/-- C10: a spec that strips to the empty string is not a resolution
error: `Path("")` denotes the current directory, which exists on any live
filesystem (`hdot`), so `resolve` returns the singleton of the
canonicalized absolute current working directory. -/
theorem resolve_empty_spec (fs : FileSys) (probe : ProbeEnv)
    (pip : String → String → PipResult) (spec : String)
    (hspec : pyTrim spec = "") (hdot : fs.pathExists "." = true) :
    resolve fs probe pip spec = .ok [fs.resolvePath "."] := by
  unfold resolve
  rw [hspec]
  simp [show is_url "" = false from rfl, show pathOf "" = "." from rfl, hdot]

/-- Witness for C10: a whitespace-only spec on a filesystem where only the
current directory exists, canonicalised to a fixed absolute path. -/
theorem resolve_empty_spec_witness :
    resolve fsDot probeNone pipEmpty "   " = .ok ["/home/user/proj"] :=
  resolve_empty_spec fsDot probeNone pipEmpty "   " (by decide) (by decide)

/-- `pyTrim` written through `List.rdropWhile`. -/
theorem pyTrim_eq_rdropWhile (s : String) :
    pyTrim s = String.mk ((s.toList.dropWhile Char.isWhitespace).rdropWhile Char.isWhitespace) := rfl

/-- The head surviving a `dropWhile` fails the predicate. -/
theorem dropWhile_head?_not {α : Type} (p : α → Bool) (l : List α) :
    ∀ x, (l.dropWhile p).head? = some x → p x = false := by
  induction l with
  | nil =>
    intro x h
    cases h
  | cons a as ih =>
    intro x h
    rw [List.dropWhile_cons] at h
    by_cases hpa : p a = true
    · rw [if_pos hpa] at h
      exact ih x h
    · rw [if_neg hpa] at h
      have hax : a = x := by simpa using h
      rw [← hax]
      exact Bool.not_eq_true _ |>.mp hpa

/-- Stripping whitespace twice is the same as stripping once. -/
theorem pyTrim_idem (s : String) : pyTrim (pyTrim s) = pyTrim s := by
  rw [pyTrim_eq_rdropWhile, pyTrim_eq_rdropWhile]
  have htoList : (String.mk ((s.toList.dropWhile Char.isWhitespace).rdropWhile Char.isWhitespace)).toList
      = (s.toList.dropWhile Char.isWhitespace).rdropWhile Char.isWhitespace := rfl
  rw [htoList]
  have hstep1 : ((s.toList.dropWhile Char.isWhitespace).rdropWhile Char.isWhitespace).dropWhile Char.isWhitespace
      = (s.toList.dropWhile Char.isWhitespace).rdropWhile Char.isWhitespace := by
    rcases ht : (s.toList.dropWhile Char.isWhitespace).rdropWhile Char.isWhitespace with _ | ⟨x, xs⟩
    · rfl
    · -- the head of the right-trimmed list is the head of the left-trimmed
      -- list (right trimming is a prefix), which is not whitespace
      obtain ⟨r, hr⟩ := List.rdropWhile_prefix (p := Char.isWhitespace)
        (l := s.toList.dropWhile Char.isWhitespace)
      rw [ht] at hr
      have hhead : (s.toList.dropWhile Char.isWhitespace).head? = some x := by
        rw [← hr]
        rfl
      have hx := dropWhile_head?_not Char.isWhitespace s.toList x hhead
      simp [List.dropWhile_cons, hx]
  rw [hstep1, List.rdropWhile_idempotent]

/-- Every branch of `_resolve_torch` is one `_pip_download_to_tmp` call on
the stripped spec; the branches differ only in the find-links index,
collected in `torchFindLinks`. -/
theorem resolve_torch_eq (probe : ProbeEnv) (pip : String → String → PipResult)
    (spec : String) :
    _resolve_torch probe pip spec
      = _pip_download_to_tmp pip (pyTrim spec) (torchFindLinks probe (pyTrim spec)) := by
  unfold _resolve_torch torchFindLinks
  cases hc : containsSub (pyTrim spec) "+cu" || containsSub (pyTrim spec) "+cpu" with
  | true => simp [hc]
  | false =>
    cases ht : _cuda_to_tag (_detect_nvidia_cuda probe) with
    | none => simp [hc, ht]
    | some tag => simp [hc, ht]

/-- C5: GPU probing failures are never fatal.  First conjunct: when
invoking `nvidia-smi` raises, `_detect_nvidia_cuda` falls through to the
environment-variable fallback — the embedding returns `Option String`
with no error case precisely because the source catches every exception
at the point of detection.  Second conjunct: an undetected (or
unrecognized) version degrades `_resolve_torch` to the CPU-variant index
instead of raising. -/
theorem gpu_probe_never_fatal (probe : ProbeEnv)
    (pip : String → String → PipResult) (spec : String) :
    (probe.smiOutput = .error () →
      _detect_nvidia_cuda probe = envFallback probe.getEnv) ∧
    (containsSub (pyTrim spec) "+cu" = false →
      containsSub (pyTrim spec) "+cpu" = false →
      _cuda_to_tag (_detect_nvidia_cuda probe) = none →
      _resolve_torch probe pip spec
        = _pip_download_to_tmp pip (pyTrim spec) "https://download.pytorch.org/whl/cpu/") := by
  constructor
  · intro h
    unfold _detect_nvidia_cuda
    rw [h]
    rcases probe.whichNvidiaSmi with _ | a <;> rfl
  · intro h1 h2 h3
    unfold _resolve_torch
    simp [h1, h2, h3]

/-- Witness for C5: a machine where `nvidia-smi` exists but raises and no
environment variable is set; detection yields `none` and torch resolution
proceeds against the CPU index. -/
theorem gpu_probe_never_fatal_witness :
    _detect_nvidia_cuda probeSmiFail = envFallback probeSmiFail.getEnv ∧
    _resolve_torch probeSmiFail pipFail "torch"
      = _pip_download_to_tmp pipFail "torch" "https://download.pytorch.org/whl/cpu/" :=
  ⟨(gpu_probe_never_fatal probeSmiFail pipFail "torch").1 rfl,
   (gpu_probe_never_fatal probeSmiFail pipFail "torch").2 (by decide) (by decide) (by decide)⟩

/-- C6: on a torch-family spec (not a URL, not an existing path, no
archive suffix), `resolve` raises exactly when the pip helper exits
nonzero — with a `ValueError` wrapping the captured stderr text — or when
the helper succeeds but zero `.whl`/`.tar.gz` files are collected from
the scratch directory; otherwise it returns the nonempty list of
local-file URIs of the collected files. -/
theorem torch_resolution_error_iff (fs : FileSys) (probe : ProbeEnv)
    (pip : String → String → PipResult) (spec : String)
    (hurl : is_url (pyTrim spec) = false)
    (hpath : fs.pathExists (pathOf (pyTrim spec)) = false)
    (hwhl : strEnds (pyTrim spec) ".whl" = false)
    (htar : strEnds (pyTrim spec) ".tar.gz" = false)
    (htorch : strStarts (strLower ((splitWs (pyTrim spec)).headD "")) "torch" = true ∨
      strStarts (strLower ((splitWs (pyTrim spec)).headD "")) "pytorch" = true) :
    ((∃ e, resolve fs probe pip spec = .error e) ↔
      ((pip (pyTrim spec) (torchFindLinks probe (pyTrim spec))).returncode ≠ 0 ∨
        collectWheels (pip (pyTrim spec) (torchFindLinks probe (pyTrim spec))).entries = [])) ∧
    ((pip (pyTrim spec) (torchFindLinks probe (pyTrim spec))).returncode ≠ 0 →
      resolve fs probe pip spec = .error (.valueError ("Failed to download wheel for "
        ++ pyTrim spec ++ " from " ++ torchFindLinks probe (pyTrim spec)
        ++ ": pip download failed: "
        ++ pyTrim (pip (pyTrim spec) (torchFindLinks probe (pyTrim spec))).stderr))) ∧
    ((pip (pyTrim spec) (torchFindLinks probe (pyTrim spec))).returncode = 0 →
      collectWheels (pip (pyTrim spec) (torchFindLinks probe (pyTrim spec))).entries = [] →
      resolve fs probe pip spec
        = .error (.valueError ("Could not automatically download a matching PyTorch wheel."
          ++ " Please provide a direct wheel URL or local path."))) ∧
    ((pip (pyTrim spec) (torchFindLinks probe (pyTrim spec))).returncode = 0 →
      collectWheels (pip (pyTrim spec) (torchFindLinks probe (pyTrim spec))).entries ≠ [] →
      resolve fs probe pip spec
        = .ok (collectWheels (pip (pyTrim spec) (torchFindLinks probe (pyTrim spec))).entries)) := by
  have hbranch : resolve fs probe pip spec
      = match _pip_download_to_tmp pip (pyTrim spec) (torchFindLinks probe (pyTrim spec)) with
        | .error e => .error e
        | .ok files =>
          if files.isEmpty then
            .error (.valueError ("Could not automatically download a matching PyTorch wheel."
              ++ " Please provide a direct wheel URL or local path."))
          else .ok files := by
    unfold resolve
    simp only [hurl, hpath, hwhl, htar, Bool.or_self, if_false, Bool.false_eq_true]
    cases hsw : splitWs (pyTrim spec) with
    | nil =>
      rw [hsw] at htorch
      simp only [List.headD_nil] at htorch
      rcases htorch with h | h <;> exact absurd h (by decide)
    | cons tok rest =>
      rw [hsw] at htorch
      simp only [List.headD_cons] at htorch
      have hcond : (strStarts (strLower tok) "torch" || strStarts (strLower tok) "pytorch") = true := by
        rcases htorch with h | h <;> simp [h]
      simp only [hcond, if_true, resolve_torch_eq, pyTrim_idem]
  rw [hbranch]
  unfold _pip_download_to_tmp
  by_cases hrc : (pip (pyTrim spec) (torchFindLinks probe (pyTrim spec))).returncode = 0
  · rw [if_neg (by simp [hrc])]
    dsimp only
    by_cases hfe : collectWheels (pip (pyTrim spec) (torchFindLinks probe (pyTrim spec))).entries = []
    · rw [hfe]
      rw [if_pos (by simp)]
      refine ⟨?_, ?_, ?_, ?_⟩
      · exact ⟨fun _ => Or.inr rfl, fun _ => ⟨_, rfl⟩⟩
      · intro h
        exact absurd hrc h
      · intro _ _
        rfl
      · intro _ hne
        exact absurd rfl hne
    · rw [if_neg (by simpa using hfe)]
      refine ⟨?_, ?_, ?_, ?_⟩
      · constructor
        · rintro ⟨e, he⟩
          cases he
        · rintro (h | h)
          · exact absurd hrc h
          · exact absurd h hfe
      · intro h
        exact absurd hrc h
      · intro _ h
        exact absurd h hfe
      · intro _ _
        rfl
  · rw [if_pos hrc]
    dsimp only
    refine ⟨?_, ?_, ?_, ?_⟩
    · exact ⟨fun _ => Or.inl hrc, fun _ => ⟨_, rfl⟩⟩
    · intro _
      rfl
    · intro h0
      exact absurd h0 hrc
    · intro h0
      exact absurd h0 hrc

/-- Witness for C6: a failing pip helper produces the wrapped diagnostic,
and a successful helper with one wheel yields its URI. -/
theorem torch_resolution_error_iff_witness :
    (resolve fsNone probeNone pipFail "torch"
      = .error (.valueError ("Failed to download wheel for torch from "
        ++ "https://download.pytorch.org/whl/cpu/: pip download failed: "
        ++ "No matching distribution found for torch"))) ∧
    (resolve fsNone probeNone pipOne "torch"
      = .ok ["file:///home/user/.mlget/tmp/resolver_pip_download/torch-2.1.0-cp311-linux.whl"]) :=
  ⟨(torch_resolution_error_iff fsNone probeNone pipFail "torch" (by decide) (by decide)
      (by decide) (by decide) (Or.inl (by decide))).2.1 (by decide),
   (torch_resolution_error_iff fsNone probeNone pipOne "torch" (by decide) (by decide)
      (by decide) (by decide) (Or.inl (by decide))).2.2.2 (by decide) (by decide)⟩

/-- C2: the fallback downloader always returns a result (the embedding is
a total function; the source catches every `Exception`).  Its status code
is 0 exactly when the connection opened, the part file opened, the whole
stream was read to end-of-stream and the rename succeeded; on success the
destination field is the final path; on any failure the status code is
the fixed sentinel 2, the destination field is the `.part` path, the
resumable flag equals whether the `.part` file exists, and a pre-existing
partial file is never deleted. -/
theorem fallback_download_contract (w : FetchWorld) (url outDir : String) :
    ((python_fallback_download w url outDir).result.returncode = 0 ↔
      (w.urlopenOk = true ∧ w.openPartOk = true ∧ w.readEof = true ∧ w.renameOk = true)) ∧
    ((python_fallback_download w url outDir).result.returncode = 0 →
      (python_fallback_download w url outDir).result.out_path
        = pyJoin outDir (if pathName url = "" then "downloaded.file" else pathName url)) ∧
    ((python_fallback_download w url outDir).result.returncode ≠ 0 →
      (python_fallback_download w url outDir).result.returncode = 2 ∧
      (python_fallback_download w url outDir).result.out_path
        = pyJoin outDir ((if pathName url = "" then "downloaded.file" else pathName url) ++ ".part") ∧
      (python_fallback_download w url outDir).result.continued
        = (python_fallback_download w url outDir).partExistsAfter ∧
      (w.partPreExists = true →
        (python_fallback_download w url outDir).partExistsAfter = true)) := by
  cases h1 : w.urlopenOk <;> cases h2 : w.openPartOk <;> cases h3 : w.readEof <;>
    cases h4 : w.renameOk <;>
      simp [python_fallback_download, h1, h2, h3, h4]

/-- Witness for C2: a concrete mid-stream failure leaves the `.part`
destination and sentinel 2, and a concrete full read renames to the final
name with status 0. -/
theorem fallback_download_contract_witness :
    ((python_fallback_download wFetchMidFail "http://host/f.bin" "/dl").result.returncode = 2 ∧
      (python_fallback_download wFetchMidFail "http://host/f.bin" "/dl").result.out_path
        = "/dl/f.bin.part" ∧
      (python_fallback_download wFetchMidFail "http://host/f.bin" "/dl").result.continued
        = (python_fallback_download wFetchMidFail "http://host/f.bin" "/dl").partExistsAfter ∧
      (wFetchMidFail.partPreExists = true →
        (python_fallback_download wFetchMidFail "http://host/f.bin" "/dl").partExistsAfter = true)) ∧
    (python_fallback_download wFetchOk "http://host/f.bin" "/dl").result.out_path
      = "/dl/f.bin" :=
  ⟨(fallback_download_contract wFetchMidFail "http://host/f.bin" "/dl").2.2 (by decide),
   (fallback_download_contract wFetchOk "http://host/f.bin" "/dl").2.1 (by decide)⟩

/-- C7: Strategy A invokes the accelerator with the binary first, then the
caller-supplied extra arguments (with `None` entries dropped), then the
fixed arguments `--enable-rpc=false`, `--split=N`,
`--max-connection-per-server=N` (both the concurrency hint),
`--continue=true`, `--dir destDir`, `--out filename`, and the URL last;
the result captures the subprocess exit code and both output streams
verbatim (exit code 0 being what the orchestrator treats as success, cf.
`installOps`). -/
theorem aria2c_invocation_shape (w : Aria2World) (aria2c url outDir : String)
    (split : Nat) (extra_args : Option (List (Option String))) :
    (Aria2cDownloader.download w aria2c url outDir split extra_args).argv
      = [aria2c] ++ (extra_args.getD []).filterMap id
        ++ ["--enable-rpc=false", "--split=" ++ toString split,
            "--max-connection-per-server=" ++ toString split, "--continue=true",
            "--dir", outDir, "--out",
            (if pathName url = "" then "downloaded.file" else pathName url), url] ∧
    (Aria2cDownloader.download w aria2c url outDir split extra_args).result.returncode
      = (w.run (Aria2cDownloader.download w aria2c url outDir split extra_args).argv).returncode ∧
    (Aria2cDownloader.download w aria2c url outDir split extra_args).result.stdout
      = (w.run (Aria2cDownloader.download w aria2c url outDir split extra_args).argv).stdout ∧
    (Aria2cDownloader.download w aria2c url outDir split extra_args).result.stderr
      = (w.run (Aria2cDownloader.download w aria2c url outDir split extra_args).argv).stderr := by
  rcases extra_args with _ | l
  · exact ⟨rfl, rfl, rfl, rfl⟩
  · rcases l with _ | ⟨a, as⟩
    · exact ⟨rfl, rfl, rfl, rfl⟩
    · exact ⟨rfl, rfl, rfl, rfl⟩

/-- C8 counterexample: in a world where the `.part` marker is absent
before the accelerator subprocess starts but present when it exits, the
result's `continued` flag is `true` — the source evaluates
`part_path.exists()` only when building the result dict, after
`subprocess.run` has returned, so the flag does not equal the before-start
state the claim describes. -/
theorem aria2c_continued_checked_after_run :
    (Aria2cDownloader.download wPartAppears "aria2c" "http://host/f.bin" "/dl" 8 none).result.continued
        = true ∧
    wPartAppears.partExistsBeforeRun = false :=
  ⟨rfl, rfl⟩

/-- C8 (amended): the resumable/`continued` flag in Strategy A's result
equals whether the `<filename>.part` marker exists in the destination
directory at the moment the result is constructed, after the accelerator
subprocess has exited (the marker path is computed before starting, but
its existence is only checked after completion; the flag is informational
only). -/
theorem aria2c_continued_eq_post_run (w : Aria2World) (aria2c url outDir : String)
    (split : Nat) (extra_args : Option (List (Option String))) :
    (Aria2cDownloader.download w aria2c url outDir split extra_args).result.continued
      = w.partExistsAfterRun := rfl

/-- C4: inserting the same file path twice leaves exactly one `cache` row
for that path; the second call neither raises (INSERT OR IGNORE, and the
embedding is total) nor duplicates nor overwrites — the store after the
second call is exactly the store after the first.  The hypothesis is the
UNIQUE-constraint invariant: at most one existing row per path. -/
theorem add_cache_entry_idempotent (db : CacheDB) (fsSize : String → Option Nat)
    (path : String) (pn pv : Option String) (t1 t2 : Nat)
    (huniq : countPath db.cache path ≤ 1) :
    countPath (db.add_cache_entry fsSize path pn pv t1).1.cache path = 1 ∧
    ((db.add_cache_entry fsSize path pn pv t1).1.add_cache_entry fsSize path pn pv t2).1
      = (db.add_cache_entry fsSize path pn pv t1).1 := by
  by_cases hany : db.cache.any (fun r => r.file_path = path) = true
  · have hfirst : (db.add_cache_entry fsSize path pn pv t1).1 = db := by
      unfold CacheDB.add_cache_entry
      rw [if_pos hany]
    rw [hfirst]
    constructor
    · have hge : 1 ≤ countPath db.cache path := by
        obtain ⟨r, hr, hp⟩ := List.any_eq_true.mp hany
        have : r ∈ db.cache.filter (fun r => r.file_path = path) :=
          List.mem_filter.mpr ⟨hr, hp⟩
        have := List.length_pos.mpr (List.ne_nil_of_mem this)
        exact this
      omega
    · unfold CacheDB.add_cache_entry
      rw [if_pos hany]
  · have hnone : db.cache.filter (fun r => r.file_path = path) = [] := by
      rw [List.filter_eq_nil_iff]
      intro a ha
      have := List.any_eq_false.mp (Bool.not_eq_true _ |>.mp hany) a ha
      simpa using this
    unfold CacheDB.add_cache_entry
    rw [if_neg hany]
    constructor
    · unfold countPath
      rw [List.filter_append, hnone]
      simp
    · rw [if_pos]
      apply List.any_eq_true.mpr
      refine ⟨_, List.mem_append_right _ (List.mem_singleton_self _), ?_⟩
      simp

/-- Witness for C4: two insertions of the same path into the empty store. -/
theorem add_cache_entry_idempotent_witness :
    countPath (db0.add_cache_entry sizeNone "/dl/a.whl" none none 5).1.cache "/dl/a.whl" = 1 ∧
    ((db0.add_cache_entry sizeNone "/dl/a.whl" none none 5).1.add_cache_entry
        sizeNone "/dl/a.whl" none none 6).1
      = (db0.add_cache_entry sizeNone "/dl/a.whl" none none 5).1 :=
  add_cache_entry_idempotent db0 sizeNone "/dl/a.whl" none none 5 6 (by decide)

/-- `find?` skips a block in which every element fails the predicate. -/
theorem find?_append_right {α : Type} (p : α → Bool) (l1 l2 : List α)
    (h : ∀ a ∈ l1, p a = false) : (l1 ++ l2).find? p = l2.find? p := by
  induction l1 with
  | nil => rfl
  | cons a as ih =>
    rw [List.cons_append, List.find?_cons_of_neg]
    · exact ih (fun x hx => h x (List.mem_cons_of_mem a hx))
    · simp [h a (List.mem_cons_self a as)]

/-- `DownloadUpdate.apply` never changes the row id. -/
theorem DownloadUpdate.apply_id (u : DownloadUpdate) (now : Nat) (r : DownloadRow) :
    (u.apply now r).id = r.id := rfl

/-- The freshly created task of `add_download` reads back with the status
it was created with, under the AUTOINCREMENT invariant. -/
theorem statusOf_add_download (db : CacheDB) (url out_path status : String)
    (now : Nat) (hwf : db.wf) :
    statusOf (db.add_download url out_path status now).1
      (db.add_download url out_path status now).2 = some status := by
  unfold CacheDB.add_download statusOf
  dsimp only
  rw [find?_append_right]
  · rw [List.find?_cons_of_pos]
    · rfl
    · simp
  · intro a ha
    have := hwf a ha
    simp
    omega

/-- `update_download` over a list of rows: updating by id and then looking
the id up is looking it up first and updating the found row. -/
theorem find?_update_map (l : List DownloadRow) (did : Nat) (u : DownloadUpdate)
    (now : Nat) :
    (l.map (fun r => if r.id = did then u.apply now r else r)).find? (fun r => r.id = did)
      = (l.find? (fun r => r.id = did)).map (fun r => u.apply now r) := by
  induction l with
  | nil => rfl
  | cons a as ih =>
    by_cases ha : a.id = did
    · rw [List.map_cons, if_pos ha, List.find?_cons_of_pos, List.find?_cons_of_pos]
      · rfl
      · simp [ha]
      · simp [DownloadUpdate.apply_id, ha]
    · rw [List.map_cons, if_neg ha, List.find?_cons_of_neg, List.find?_cons_of_neg]
      · exact ih
      · simp [ha]
      · simp [ha]

/-- Reading a task status after `update_download`: unchanged for an empty
field map, else overwritten by the requested status (or kept when the map
does not mention `status`). -/
theorem statusOf_update_download (db : CacheDB) (did : Nat) (u : DownloadUpdate)
    (now : Nat) :
    statusOf (db.update_download did u now) did
      = if u.isEmpty then statusOf db did
        else (statusOf db did).map (fun s => u.status.getD s) := by
  unfold CacheDB.update_download statusOf
  by_cases he : u.isEmpty = true
  · rw [if_pos he, if_pos he]
  · rw [if_neg he, if_neg he]
    rw [find?_update_map]
    cases db.downloads.find? (fun r => r.id = did) <;> rfl

/-- `add_cache_entry` never touches the `downloads` table. -/
theorem statusOf_add_cache_entry (db : CacheDB) (fsSize : String → Option Nat)
    (path : String) (pn pv : Option String) (now : Nat) (did : Nat) :
    statusOf (db.add_cache_entry fsSize path pn pv now).1 did = statusOf db did := by
  unfold CacheDB.add_cache_entry
  by_cases hany : db.cache.any (fun r => r.file_path = path) = true
  · rw [if_pos hany]
  · rw [if_neg hany]
    rfl

/-- C9: over one install run (`createTask` as `queued`, then exactly one
`updateTask` to `completed` or `failed` according to the transfer's
status code), the task statuses read back after the successive store
operations are `queued` followed only by the terminal status — once the
status is terminal, no later read of the run shows `queued` again. -/
theorem install_status_monotonic (db : CacheDB) (fsSize : String → Option Nat)
    (url out_path cachePath : String) (rc : Int) (t1 t2 t3 : Nat)
    (hwf : db.wf) :
    (installStatusTrace db fsSize url out_path cachePath rc t1 t2 t3
      = if rc = 0 then [some "queued", some "completed", some "completed"]
        else [some "queued", some "failed"]) ∧
    (∀ i j : Nat, i ≤ j →
      isTerminalStatus
        ((installStatusTrace db fsSize url out_path cachePath rc t1 t2 t3).getD i none) = true →
      (installStatusTrace db fsSize url out_path cachePath rc t1 t2 t3).getD j none
        ≠ some "queued") := by
  have hq := statusOf_add_download db url out_path "queued" t1 hwf
  have htrace : installStatusTrace db fsSize url out_path cachePath rc t1 t2 t3
      = if rc = 0 then [some "queued", some "completed", some "completed"]
        else [some "queued", some "failed"] := by
    unfold installStatusTrace installOps
    by_cases hrc : rc = 0
    · rw [if_pos hrc, if_pos hrc]
      simp only [List.map_cons, List.map_nil]
      rw [statusOf_add_cache_entry, statusOf_update_download, hq]
      simp [DownloadUpdate.isEmpty]
    · rw [if_neg hrc, if_neg hrc]
      simp only [List.map_cons, List.map_nil]
      rw [statusOf_update_download, hq]
      simp [DownloadUpdate.isEmpty]
  refine ⟨htrace, ?_⟩
  intro i j hij hterm
  rw [htrace] at hterm ⊢
  by_cases hrc : rc = 0 <;> [rw [if_pos hrc] at hterm ⊢; rw [if_neg hrc] at hterm ⊢] <;>
  · match i, j, hij with
    | 0, _, _ => exact absurd hterm (by decide)
    | _ + 1, 0, hij => exact absurd hij (by omega)
    | _ + 1, 1, _ => decide
    | _ + 1, 2, _ => decide
    | _ + 1, n + 3, _ =>
      rw [List.getD_eq_default]
      · exact Option.noConfusion
      · simp

/-- Witness for C9: a successful install on the empty store shows the
trace `queued`, `completed`, `completed`. -/
theorem install_status_monotonic_witness :
    installStatusTrace db0 sizeNone "file:///tmp/a.whl" "/dl/a.whl" "/dl/a.whl" 0 1 2 3
      = [some "queued", some "completed", some "completed"] := by
  have h := (install_status_monotonic db0 sizeNone "file:///tmp/a.whl" "/dl/a.whl"
    "/dl/a.whl" 0 1 2 3 (fun r hr => absurd hr (List.not_mem_nil r))).1
  simpa using h

end MLget
